import Mathlib

/-!
Verification of the per-day "features" data pipeline (MOT transit
ridership + rain + day-type classification).

The development shallowly embeds the decision logic of the Python
sources:

* `db_mock/mot_collecting_fucntional.py`  — gap detection
  (`get_latest_date_from_db` / `main`), transit normalization
  (`process_mot_data`) and the unconditional upsert (`insert_new_data`);
* `db_mock/bring_into_clonefolder/day_type_collecting.py` — the
  second-Saturday computation (`get_second_saturday`), the priority
  classifier inside `classify_day_types`, and the guarded
  `update_day_type_in_db`;
* `db_mock/bring_into_clonefolder/rain_collecting.py` — the guarded
  `update_rain_average_in_db`;
* `db_mock/bring_into_clonefolder/weekly_data_collecting copy.py` — the
  quality checks (`check_mot_data_quality`,
  `check_day_type_data_quality`), their branch decisions, and the DAG
  wiring between stages.

Dates are modelled as `Nat` day numbers counted from an (arbitrary)
Monday epoch, so that Python's `date.weekday()` (Monday = 0 ..
Sunday = 6) becomes `d % 7`.  Numeric payloads (passenger
counts, rain millimetres) are `Int`: the source's floats are only
stored, summed and compared in the logic under verification, never
rounded, and every concrete value the claims mention is integral.
Quality scores stay exact rationals (`Rat`); the float comparison
`score < 0.8` cannot be flipped by rounding there because every
reachable score is a fraction with small denominator.
-/

namespace DbMock

/-- Calendar date, as a day count from a Monday epoch. -/
abbrev Date := Nat

/-- Python `date.weekday()`: Monday = 0 .. Sunday = 6. -/
def weekday (d : Date) : Nat := d % 7

/-! ### String containment (Python's `needle in haystack`) -/

/-- `needle` is an initial segment of `hay` (on code points). -/
def leadsWith : List Char → List Char → Bool
  | [], _ => true
  | _ :: _, [] => false
  | a :: as, b :: bs => a = b && leadsWith as bs

/-- `needle` occurs contiguously inside `hay` (on code points). -/
def hasSub (needle : List Char) : List Char → Bool
  | [] => leadsWith needle []
  | b :: bs => leadsWith needle (b :: bs) || hasSub needle bs

/-- Python's `needle in hay` for strings. -/
def strIn (needle hay : String) : Bool := hasSub needle.data hay.data

/-- Code-point lexicographic `≤` on character lists, as Python compares
strings. -/
def charListLe : List Char → List Char → Bool
  | [], _ => true
  | _ :: _, [] => false
  | a :: as, b :: bs => a.val < b.val || (a = b && charListLe as bs)

/-- Python's `s <= t` on strings (code-point lexicographic). -/
def strLeB (a b : String) : Bool := charListLe a.data b.data

/-! ### Day-type classifier

From the per-date loop of `classify_day_types`
(`day_type_collecting.py`, also `day_type_collecting_functional.py`):
`0` = Holiday, `2` = Festival, `1` = Normal/Weekend, checked in that
order.  Dates here are the `YYYY-MM-DD` strings the source compares. -/

def classifyDayType (dateStr : String) (holidayDates festivalDates : List String) : Int :=
  if dateStr ∈ holidayDates then 0
  else if dateStr ∈ festivalDates then 2
  else 1

/-! ### Second Saturday (`get_second_saturday`)

`calendar.monthcalendar` gives the month as Monday-first weeks with
out-of-month cells `0`; `calendar.SATURDAY = 5`. -/

def isLeapYear (y : Nat) : Bool := (y % 4 == 0 && y % 100 != 0) || y % 400 == 0

def monthLength (y m : Nat) : Nat :=
  if m = 2 then (if isLeapYear y then 29 else 28)
  else if m = 4 ∨ m = 6 ∨ m = 9 ∨ m = 11 then 30
  else 31

/-- Days in the proleptic Gregorian years before year `y` (year 1 has none). -/
def daysBeforeYear (y : Nat) : Nat :=
  365 * (y - 1) + (y - 1) / 4 - (y - 1) / 100 + (y - 1) / 400

/-- Days in the months of year `y` strictly before month `m`. -/
def daysBeforeMonth (y m : Nat) : Nat :=
  (List.range (m - 1)).foldl (fun acc i => acc + monthLength y (i + 1)) 0

/-- Weekday of the first day of the month, Monday = 0 (0001-01-01 is a Monday). -/
def firstWeekday (y m : Nat) : Nat := (daysBeforeYear y + daysBeforeMonth y m) % 7

/-- `calendar.monthcalendar(y, m)`: Monday-first week rows, `0` outside the month. -/
def monthcalendar (y m : Nat) : List (List Nat) :=
  let fw := firstWeekday y m
  let len := monthLength y m
  let nweeks := (fw + len + 6) / 7
  (List.range nweeks).map (fun w =>
    (List.range 7).map (fun c =>
      let idx := w * 7 + c
      if fw ≤ idx ∧ idx < fw + len then idx - fw + 1 else 0))

/-- `get_second_saturday`, returning the day of month (the source then
formats it as `"{y}-{m}-{day}"`). -/
def getSecondSaturday (y m : Nat) : Nat :=
  let cal := monthcalendar y m
  let w0 := (cal.getD 0 (List.replicate 7 0)).getD 5 0
  let w1 := (cal.getD 1 (List.replicate 7 0)).getD 5 0
  let w2 := (cal.getD 2 (List.replicate 7 0)).getD 5 0
  if w0 ≠ 0 then w1
  else if w1 = 0 then w2 else w1

/-- Modelled from the spec: the conventional second Saturday of the
month (day of month of the first Saturday, plus seven). -/
def conventionalSecondSaturday (y m : Nat) : Nat :=
  (1 + (5 + 7 - firstWeekday y m) % 7) + 7

/-! ### Canonical schema (`features` table / `process_mot_data` output)

`FeatureRow` is a row of the normalized DataFrame built by
`process_mot_data` (line columns FLOAT, `rain_average` left `None`).
`StoredRow` is a persisted row of the `features` table, where the line
columns are nullable (`tables.py` declares them plain `FLOAT`). -/

structure FeatureRow where
  feature_date : Date
  day_type : Int
  dow : Nat
  rain_average : Option Int
  arl : Int
  bts : Int
  mrt_blue : Int
  mrt_purple : Int
  srt_red : Int
  mrt_yellow : Int
  mrt_pink : Int
deriving DecidableEq, Repr

structure StoredRow where
  feature_date : Date
  day_type : Int
  dow : Nat
  rain_average : Option Int
  arl : Option Int
  bts : Option Int
  mrt_blue : Option Int
  mrt_purple : Option Int
  srt_red : Option Int
  mrt_yellow : Option Int
  mrt_pink : Option Int
deriving DecidableEq, Repr

/-- The seven canonical line columns. -/
inductive LineCol where
  | arl | bts | mrt_blue | mrt_purple | mrt_pink | srt_red | mrt_yellow
deriving DecidableEq, Repr

def setLine (f : LineCol) (v : Int) (r : FeatureRow) : FeatureRow :=
  match f with
  | .arl => { r with arl := v }
  | .bts => { r with bts := v }
  | .mrt_blue => { r with mrt_blue := v }
  | .mrt_purple => { r with mrt_purple := v }
  | .mrt_pink => { r with mrt_pink := v }
  | .srt_red => { r with srt_red := v }
  | .mrt_yellow => { r with mrt_yellow := v }

def getLine (f : LineCol) (r : FeatureRow) : Int :=
  match f with
  | .arl => r.arl
  | .bts => r.bts
  | .mrt_blue => r.mrt_blue
  | .mrt_purple => r.mrt_purple
  | .mrt_pink => r.mrt_pink
  | .srt_red => r.srt_red
  | .mrt_yellow => r.mrt_yellow

def getStoredLine (f : LineCol) (r : StoredRow) : Option Int :=
  match f with
  | .arl => r.arl
  | .bts => r.bts
  | .mrt_blue => r.mrt_blue
  | .mrt_purple => r.mrt_purple
  | .mrt_pink => r.mrt_pink
  | .srt_red => r.srt_red
  | .mrt_yellow => r.mrt_yellow

/-! ### Source Normalizer (`process_mot_data`)

A raw MOT record carries a date (`'วันที่'`, `none` when
`pd.to_datetime(..., errors='coerce')` fails, such records are
dropped), a free-text vehicle label (`'ยานพาหนะ/ท่า'`) and a passenger
count (`'ปริมาณ'`, `none` when unparseable, coerced to `0` by
`fillna(0)`). -/

structure RawMotRecord where
  recDate : Option Date
  vehicle : String
  qty : Option Int
deriving DecidableEq, Repr

/-- The keyword groups of `line_groups` (insertion order). -/
def lineGroups : List (String × List String) :=
  [("ARL", ["arl", "ARL", "สุวรรณภูมิ"]),
   ("BTS", ["bts", "BTS", "ลูกฟูก"]),
   ("น้ำเงิน", ["น้ำเงิน", "นำเงิน", "น้าเงิน", "สีน้ำเงิน"]),
   ("ม่วง", ["ม่วง", "มวง", "สีม่วง"]),
   ("ชมพู", ["ชมพู", "ชมพูู", "ชมพุ", "สีชมพู"]),
   ("แดง", ["แดง", "แดง", "สีแดง", "ชานเมือง"]),
   ("เหลือง", ["เหลือง", "เหลืง", "สีเหลือง"])]

/-- `vehicle_mapping` (insertion order): canonical label → target column. -/
def vehicleMapping : List (String × LineCol) :=
  [("รถไฟฟ้า ARL", .arl),
   ("รถไฟฟ้า BTS", .bts),
   ("รถไฟฟ้าสายสีน้ำเงิน", .mrt_blue),
   ("รถไฟฟ้าสายสีม่วง", .mrt_purple),
   ("รถไฟฟ้าสายสีชมพู", .mrt_pink),
   ("รถไฟฟ้าสายสีแดง", .srt_red),
   ("รถไฟฟ้าสายสีเหลือง", .mrt_yellow)]

/-- Records surviving `df.dropna(subset=['วันที่'])`. -/
def validRecords (recs : List RawMotRecord) : List RawMotRecord :=
  recs.filter (fun r => r.recDate.isSome)

/-- The pivot index: distinct valid dates, ascending (pandas sorts the
`pivot_table` index). -/
def pivotDates (recs : List RawMotRecord) : List Date :=
  List.insertionSort (· ≤ ·) ((validRecords recs).filterMap (·.recDate)).dedup

/-- The pivot columns: distinct vehicle labels of valid records,
ascending (pandas sorts the `pivot_table` columns; Python compares
strings by code point, as Lean does). -/
def pivotCols (recs : List RawMotRecord) : List String :=
  List.insertionSort (fun a b => strLeB a b = true) ((validRecords recs).map (·.vehicle)).dedup

/-- One pivot cell: `aggfunc='sum'` over records of that date and
label, `fill_value=0`, with unparseable counts already coerced to 0. -/
def pivotVal (recs : List RawMotRecord) (label : String) (d : Date) : Int :=
  ((recs.filter (fun r => r.recDate = some d ∧ r.vehicle = label)).map
    (fun r => r.qty.getD 0)).sum

/-- One step of the column-merge loop, for one keyword group: columns
(with the original labels folded into them so far) whose name contains
one of the group's keywords are summed into the first such column (in
pivot order) and the rest are dropped.  The source computes the match
against the pre-merge column list but reads the live DataFrame (a
label matching two groups would raise a `KeyError` there); we match
against the live column list, which agrees whenever the source does
not raise. -/
def mergeGroup (cols : List (String × List String)) (keywords : List String) :
    List (String × List String) :=
  let matching := cols.filter (fun c => keywords.any (fun k => strIn k c.1))
  match matching with
  | [] => cols
  | [_] => cols
  | main :: rest =>
    let restNames := rest.map (·.1)
    (cols.filter (fun c => ¬ restNames.contains c.1)).map
      (fun c => if c.1 = main.1 then (c.1, c.2 ++ rest.foldl (fun acc o => acc ++ o.2) []) else c)

/-- The surviving pivot columns after the whole merge loop, each with
the original pivot labels whose values it now carries. -/
def mergedColumns (recs : List RawMotRecord) : List (String × List String) :=
  lineGroups.foldl (fun cols g => mergeGroup cols g.2) ((pivotCols recs).map (fun c => (c, [c])))

/-- Value of a merged column at a date: the sum of its constituent
original pivot columns. -/
def mergedColValue (recs : List RawMotRecord) (col : String × List String) (d : Date) : Int :=
  (col.2.map (fun lab => pivotVal recs lab d)).sum

/-- First canonical vehicle label contained in the column name, if any
(the `for vehicle_name ... if vehicle_name in pivot_col ... break` scan). -/
def mappedField (colName : String) : Option LineCol :=
  (vehicleMapping.find? (fun p => strIn p.1 colName)).map (·.2)

/-- The fresh record for one date: `day_type = -1`, `dow =
record_date.weekday()`, `rain_average = None`, all lines `0.0`. -/
def initFeatureRow (d : Date) : FeatureRow :=
  ⟨d, -1, weekday d, none, 0, 0, 0, 0, 0, 0, 0⟩

/-- One step of the record-filling loop: if a canonical label is
contained in the (merged) column name, write the merged value into the
target field, else skip the column. -/
def buildStep (recs : List RawMotRecord) (d : Date) (rec : FeatureRow)
    (col : String × List String) : FeatureRow :=
  match mappedField col.1 with
  | some f => setLine f (mergedColValue recs col d) rec
  | none => rec

/-- Fill the record for date `d` from the merged pivot columns. -/
def buildRecord (recs : List RawMotRecord) (cols : List (String × List String))
    (d : Date) : FeatureRow :=
  cols.foldl (buildStep recs d) (initFeatureRow d)

/-- `process_mot_data`: `None` on an empty batch or when no record has
a parseable date; otherwise one row per distinct date, ascending. -/
def processMotData (recs : List RawMotRecord) : Option (List FeatureRow) :=
  if recs.isEmpty then none
  else if (pivotDates recs).isEmpty then none
  else some ((pivotDates recs).map (buildRecord recs (mergedColumns recs)))

/-! ### Quality Evaluator (`weekly_data_collecting copy.py`)

The checks run over the rows of the trailing window (`feature_date >=
CURRENT_DATE - INTERVAL '7 days'`); we take that window's rows as the
input list. -/

/-- A quality check's `status` field. -/
inductive QStatus where
  | pass | warning | fail
deriving DecidableEq, Repr

/-- `transport_columns` (source order). -/
def transportColumns : List LineCol :=
  [.arl, .bts, .mrt_blue, .mrt_purple, .mrt_pink, .srt_red, .mrt_yellow]

/-- `anomaly_thresholds` (default 1,000,000 is never consulted: every
member of `transport_columns` has an entry). -/
def anomalyThreshold (c : LineCol) : Int :=
  match c with
  | .bts => 2000000
  | .mrt_blue => 1500000
  | .mrt_purple => 800000
  | .arl => 200000
  | .srt_red => 300000
  | .mrt_yellow => 500000
  | .mrt_pink => 400000

/-- The `missing_data[column]` issue list: window dates where the
column is NULL, then window dates where it is exactly zero. -/
def motMissingIssues (rows : List StoredRow) (c : LineCol) : List Date :=
  ((rows.filter (fun r => getStoredLine c r = none)).map (·.feature_date)) ++
    ((rows.filter (fun r => getStoredLine c r = some 0)).map (·.feature_date))

/-- `total_missing`: the summed issue-list lengths over all seven lines. -/
def motTotalMissing (rows : List StoredRow) : Nat :=
  (transportColumns.map (fun c => (motMissingIssues rows c).length)).sum

/-- The anomaly findings: per line, window rows whose value exceeds the
threshold or is negative (SQL leaves NULLs unselected). -/
def motAnomalies (rows : List StoredRow) : List (LineCol × Date) :=
  transportColumns.foldl (fun acc c =>
    acc ++ (rows.filter (fun r =>
      match getStoredLine c r with
      | some v => anomalyThreshold c < v ∨ v < 0
      | none => False)).map (fun r => (c, r.feature_date))) []

/-- `quality_score = max(0, (total_expected_records - total_missing) /
total_expected_records)` with `total_expected_records = 7 * 7`. -/
def motQualityScore (rows : List StoredRow) : Rat :=
  max 0 ((49 - (motTotalMissing rows : Rat)) / 49)

/-- The MOT check's final `status`: `FAIL` when the score is below 0.8,
otherwise `WARNING` when any anomaly or missing cell exists, otherwise
the initial `PASS`. -/
def motStatusOf (rows : List StoredRow) : QStatus :=
  if motQualityScore rows < 4/5 then .fail
  else if motAnomalies rows ≠ [] ∨ motTotalMissing rows > 0 then .warning
  else .pass

/-- `check_day_type_data_quality` step 3: window rows with
`dow IN (6, 0) AND day_type NOT IN (1, 2)` become classification
errors.  (With the stored Monday=0..Sunday=6 encoding these are the
Sunday and Monday rows, although the SQL comment says
Saturday/Sunday.) -/
def dayTypeClassificationErrors (rows : List StoredRow) : List StoredRow :=
  rows.filter (fun r => (r.dow = 6 ∨ r.dow = 0) ∧ ¬(r.day_type = 1 ∨ r.day_type = 2))

/-- `pending_day_type_remaining`: window rows still at the placeholder. -/
def dayTypePending (rows : List StoredRow) : Nat :=
  (rows.filter (fun r => r.day_type = -1)).length

/-- `records_processed`: window rows with a real day type. -/
def dayTypeProcessed (rows : List StoredRow) : Nat :=
  (rows.filter (fun r => r.day_type ≠ -1)).length

/-- The day-type check's score: `records_processed / total_records`
(`total_records` comes from the MOT report's XCom), left at the
initial 0.0 when `total_records = 0`. -/
def dayTypeScore (rows : List StoredRow) (totalRecords : Nat) : Rat :=
  if totalRecords > 0 then (dayTypeProcessed rows : Rat) / totalRecords else 0

/-- The day-type check's final `status`: three sequential `if`s
(pending → WARNING, classification errors → WARNING, low score →
FAIL), so FAIL wins, then WARNING. -/
def dayTypeStatusOf (rows : List StoredRow) (totalRecords : Nat) : QStatus :=
  if dayTypeScore rows totalRecords < 4/5 then .fail
  else if dayTypeClassificationErrors rows ≠ [] ∨ dayTypePending rows > 0 then .warning
  else .pass

/-! ### Pipeline Orchestrator (branch decisions and DAG wiring)

Each `BranchPythonOperator` callable returns the task id to run next;
the non-selected branch is skipped.  The DAG edges are in the
`Task Dependencies & Workflow` section of the source. -/

/-- `check_mot_data_quality`'s branch decision. -/
def motBranchOf (st : QStatus) : String :=
  if st = .fail then "mot_quality_failed" else "collect_rain_weather_data"

/-- `check_rain_data_quality`'s branch decision. -/
def rainBranchOf (st : QStatus) : String :=
  if st = .fail then "rain_quality_failed" else "collect_day_type_data"

/-- `check_day_type_data_quality`'s branch decision. -/
def dayTypeBranchOf (st : QStatus) : String :=
  if st = .fail then "day_type_quality_failed" else "final_quality_validation"

/-- The tasks that actually run in one DAG run, in order, given the
three stage verdicts: after each quality check only the branch it
returned continues, and every failure terminal joins `end`. -/
def pipelineTrace (mot rain dayType : QStatus) : List String :=
  ["start_weekly_data_collection", "collect_mot_transport_data", "mot_quality_check"] ++
    (if mot = .fail then ["mot_quality_failed", "end_weekly_data_collection"]
     else ["collect_rain_weather_data", "rain_quality_check"] ++
       (if rain = .fail then ["rain_quality_failed", "end_weekly_data_collection"]
        else ["collect_day_type_data", "day_type_quality_check"] ++
          (if dayType = .fail then ["day_type_quality_failed", "end_weekly_data_collection"]
           else ["final_quality_validation", "pipeline_success", "end_weekly_data_collection"])))

/-! ### Upsert Engine

The `features` table is a map keyed by `feature_date` (its primary
key); row order inside PostgreSQL is not observable. -/

/-- The persisted store. -/
def Store := Date → Option StoredRow

/-- A normalized row as it lands in the table (line floats become
non-NULL values). -/
def storedOfRow (b : FeatureRow) : StoredRow :=
  ⟨b.feature_date, b.day_type, b.dow, b.rain_average, some b.arl, some b.bts,
    some b.mrt_blue, some b.mrt_purple, some b.srt_red, some b.mrt_yellow, some b.mrt_pink⟩

/-- One `INSERT ... ON CONFLICT (feature_date) DO UPDATE SET <every
field> = EXCLUDED.<field>`: the row at the batch row's date is created
or fully overwritten. -/
def upsertRow (s : Store) (b : FeatureRow) : Store :=
  fun d => if b.feature_date = d then some (storedOfRow b) else s d

/-- Sort a batch by date (stable), as `insert_new_data` re-sorts the
DataFrame before writing. -/
def sortByDate (df : List FeatureRow) : List FeatureRow :=
  List.insertionSort (fun a b => a.feature_date ≤ b.feature_date) df

/-- `insert_new_data`: the whole batch upserted row by row in date
order. -/
def insertNewData (df : List FeatureRow) (s : Store) : Store :=
  (sortByDate df).foldl upsertRow s

/-- One `UPDATE features SET day_type = %s WHERE feature_date = %s AND
day_type = -1`. -/
def updateDayTypeRow (s : Store) (f : Date × Int) : Store :=
  fun d => if f.1 = d then
      match s d with
      | some r => if r.day_type = -1 then some { r with day_type := f.2 } else some r
      | none => none
    else s d

/-- `update_day_type_in_db`: the per-date updates in fragment order. -/
def updateDayTypeInDb (frags : List (Date × Int)) (s : Store) : Store :=
  frags.foldl updateDayTypeRow s

/-- One `UPDATE features SET rain_average = %s WHERE feature_date = %s
AND rain_average IS NULL`. -/
def updateRainRow (s : Store) (f : Date × Int) : Store :=
  fun d => if f.1 = d then
      match s d with
      | some r => if r.rain_average = none then some { r with rain_average := some f.2 } else some r
      | none => none
    else s d

/-- `update_rain_average_in_db`: the per-date updates in fragment order. -/
def updateRainAverageInDb (frags : List (Date × Int)) (s : Store) : Store :=
  frags.foldl updateRainRow s

/-! ### Gap Detector (`get_latest_date_from_db` / `main`)

`main` only uses the year and month of the latest date and of today to
build the query plan, so dates are `(year, month, day)` triples here. -/

/-- A calendar date as the gap detector sees it. -/
abbrev Ymd := Nat × Nat × Nat

/-- Date order (lexicographic, as PostgreSQL compares DATEs). -/
def ymdLe (a b : Ymd) : Bool :=
  a.1 < b.1 || (a.1 = b.1 && (a.2.1 < b.2.1 || (a.2.1 = b.2.1 && a.2.2 ≤ b.2.2)))

/-- One step of taking `MAX(feature_date)`. -/
def latestStep (acc : Option Ymd) (d : Ymd) : Option Ymd :=
  match acc with
  | none => some d
  | some a => some (if ymdLe a d then d else a)

/-- `SELECT MAX(feature_date) FROM features` followed by
`result[0] if result[0] else None`: `none` exactly on an empty store. -/
def getLatestDate (dates : List Ymd) : Option Ymd :=
  dates.foldl latestStep none

/-- Month order, as Python sorts `(year, month)` tuples. -/
def monthLe (a b : Nat × Nat) : Bool :=
  a.1 < b.1 || (a.1 = b.1 && a.2 ≤ b.2)

/-- `main`'s query plan for a known latest date: the latest month alone
when it is the current month, otherwise the deduplicated sorted pair of
latest month and current month. -/
def monthsToQuery (latest today : Ymd) : List (Nat × Nat) :=
  let l := (latest.1, latest.2.1)
  let t := (today.1, today.2.1)
  if l = t then [t]
  else List.insertionSort (fun a b => monthLe a b = true) ([l, t].dedup)

/-- `main` steps 1–2: abort (return `False`, plan nothing) when the
latest date is unknown, otherwise produce the incremental query plan. -/
def motMainPlan (latest : Option Ymd) (today : Ymd) : Option (List (Nat × Nat)) :=
  match latest with
  | none => none
  | some l => some (monthsToQuery l today)

/-- The gap-detection phase of a run: read `MAX(feature_date)` from the
store's dates, then plan. -/
def motRunPlan (storeDates : List Ymd) (today : Ymd) : Option (List (Nat × Nat)) :=
  motMainPlan (getLatestDate storeDates) today


/-! ### Observed-cell helpers for the upsert proofs -/

/-- The unconditional upsert write, observed at one date. -/
def insertCell (d : Date) (o : Option StoredRow) (b : FeatureRow) : Option StoredRow :=
  if b.feature_date = d then some (storedOfRow b) else o

/-- The guarded day-type write, observed at one date. -/
def dayTypeCell (d : Date) (o : Option StoredRow) (f : Date × Int) : Option StoredRow :=
  if f.1 = d then
    match o with
    | some r => if r.day_type = -1 then some { r with day_type := f.2 } else some r
    | none => none
  else o

/-- The guarded rain write, observed at one date. -/
def rainCell (d : Date) (o : Option StoredRow) (f : Date × Int) : Option StoredRow :=
  if f.1 = d then
    match o with
    | some r =>
      if r.rain_average = none then some { r with rain_average := some f.2 } else some r
    | none => none
  else o

/-! ### Concrete instances used by the claim theorems and witnesses -/

/-- A raw transit batch with observations for one date under the two
labels of the spec's reconciliation example. -/
def purpleBatch : List RawMotRecord :=
  [⟨some 0, "มวง-สาย", some 50⟩, ⟨some 0, "รถไฟฟ้าสายสีม่วง", some 100⟩]

/-- A one-record batch for the C10 witness. -/
def btsBatch : List RawMotRecord := [⟨some 3, "รถไฟฟ้า BTS", some 500⟩]

/-- The row the C10 witness batch normalizes to. -/
def btsRows : List FeatureRow := [⟨3, -1, 3, none, 0, 500, 0, 0, 0, 0, 0⟩]

/-- A 7-day window over the 7 line columns with exactly 10 missing
cells (row 0 has all seven lines NULL; row 1 has two NULL and one
exact zero), every other cell populated and unremarkable. -/
def tenMissingWindow : List StoredRow :=
  [⟨0, 1, 0, some 1, none, none, none, none, none, none, none⟩,
   ⟨1, 1, 1, some 1, none, none, some 0, some 100, some 100, some 100, some 100⟩,
   ⟨2, 1, 2, some 1, some 100, some 100, some 100, some 100, some 100, some 100, some 100⟩,
   ⟨3, 1, 3, some 1, some 100, some 100, some 100, some 100, some 100, some 100, some 100⟩,
   ⟨4, 1, 4, some 1, some 100, some 100, some 100, some 100, some 100, some 100, some 100⟩,
   ⟨5, 1, 5, some 1, some 100, some 100, some 100, some 100, some 100, some 100, some 100⟩,
   ⟨6, 1, 6, some 1, some 100, some 100, some 100, some 100, some 100, some 100, some 100⟩]

/-- A Saturday (day 5 from the Monday epoch, stored `dow = 5`)
classified as Holiday, fully populated. -/
def satHolidayRow : StoredRow :=
  ⟨5, 0, 5, some 1, some 100, some 100, some 100, some 100, some 100, some 100, some 100⟩

/-- A Monday (day 7, stored `dow = 0`) classified as Holiday, fully
populated. -/
def monHolidayRow : StoredRow :=
  ⟨7, 0, 0, some 1, some 100, some 100, some 100, some 100, some 100, some 100, some 100⟩

/-- A placeholder-free row for the frame witness. -/
def frameRow0 : StoredRow :=
  ⟨0, 3, 0, some 2, some 10, some 10, some 10, some 10, some 10, some 10, some 10⟩

/-- A one-row store for the frame witness. -/
def frameStore : Store := fun d => if d = 0 then some frameRow0 else none


end DbMock

namespace DbMock

/-! ## Claim C1 -/


/-- C1: on a batch holding `"รถไฟฟ้าสายสีม่วง"` (100 riders) and
`"มวง-สาย"` (50 riders) for one date, the merge loop does sum both
labels into one surviving column — but that column is `"มวง-สาย"`
(first in pivot order), whose name contains no canonical vehicle
label, so the mapping step drops the 150 riders and the emitted row
has `mrt_purple = 0`, not the claimed sum. -/
theorem purple_merge_lost_in_mapping :
    mergedColumns purpleBatch = [("มวง-สาย", ["มวง-สาย", "รถไฟฟ้าสายสีม่วง"])] ∧
    mergedColValue purpleBatch ("มวง-สาย", ["มวง-สาย", "รถไฟฟ้าสายสีม่วง"]) 0 = 150 ∧
    mappedField "มวง-สาย" = none ∧
    processMotData purpleBatch = some [⟨0, -1, 0, none, 0, 0, 0, 0, 0, 0, 0⟩] := by
  refine ⟨by decide, by decide, by decide, by decide⟩

/-! ## Claim C10 -/

/-- `setLine` leaves the non-line fields alone. -/
theorem setLine_feature_date (f : LineCol) (v : Int) (r : FeatureRow) :
    (setLine f v r).feature_date = r.feature_date := by cases f <;> rfl

theorem setLine_day_type (f : LineCol) (v : Int) (r : FeatureRow) :
    (setLine f v r).day_type = r.day_type := by cases f <;> rfl

theorem setLine_dow (f : LineCol) (v : Int) (r : FeatureRow) :
    (setLine f v r).dow = r.dow := by cases f <;> rfl

theorem setLine_rain_average (f : LineCol) (v : Int) (r : FeatureRow) :
    (setLine f v r).rain_average = r.rain_average := by cases f <;> rfl

/-- `setLine` on another line leaves this line alone. -/
theorem getLine_setLine_ne (f g : LineCol) (hfg : f ≠ g) (v : Int) (r : FeatureRow) :
    getLine f (setLine g v r) = getLine f r := by
  cases f <;> cases g <;> simp_all [getLine, setLine]

/-- The record-filling fold leaves the non-line fields alone. -/
theorem buildFold_frame (recs : List RawMotRecord) (d : Date)
    (cols : List (String × List String)) :
    ∀ acc : FeatureRow,
      (cols.foldl (buildStep recs d) acc).feature_date = acc.feature_date ∧
      (cols.foldl (buildStep recs d) acc).day_type = acc.day_type ∧
      (cols.foldl (buildStep recs d) acc).dow = acc.dow ∧
      (cols.foldl (buildStep recs d) acc).rain_average = acc.rain_average := by
  induction cols with
  | nil => intro acc; exact ⟨rfl, rfl, rfl, rfl⟩
  | cons c cs ih =>
    intro acc
    rw [List.foldl_cons]
    have hstep : (buildStep recs d acc c).feature_date = acc.feature_date ∧
        (buildStep recs d acc c).day_type = acc.day_type ∧
        (buildStep recs d acc c).dow = acc.dow ∧
        (buildStep recs d acc c).rain_average = acc.rain_average := by
      cases hm : mappedField c.1 with
      | none => simp [buildStep, hm]
      | some f =>
        simp [buildStep, hm, setLine_feature_date, setLine_day_type, setLine_dow,
          setLine_rain_average]
    have h := ih (buildStep recs d acc c)
    exact ⟨h.1.trans hstep.1, h.2.1.trans hstep.2.1, h.2.2.1.trans hstep.2.2.1,
      h.2.2.2.trans hstep.2.2.2⟩

/-- A line column that no surviving pivot column maps to keeps the
accumulator's value through the record-filling fold. -/
theorem buildFold_unmapped (recs : List RawMotRecord) (d : Date) (f : LineCol)
    (cols : List (String × List String)) :
    ∀ acc : FeatureRow, (∀ c ∈ cols, mappedField c.1 ≠ some f) →
      getLine f (cols.foldl (buildStep recs d) acc) = getLine f acc := by
  induction cols with
  | nil => intro acc _; rfl
  | cons c cs ih =>
    intro acc hall
    rw [List.foldl_cons]
    have hrest : ∀ c' ∈ cs, mappedField c'.1 ≠ some f :=
      fun c' hc' => hall c' (List.mem_cons_of_mem c hc')
    rw [ih _ hrest]
    cases hm : mappedField c.1 with
    | none => simp [buildStep, hm]
    | some g =>
      have hgf : f ≠ g := by
        intro h
        exact hall c (List.mem_cons_self c cs) (by rw [hm, h])
      simp [buildStep, hm, getLine_setLine_ne f g hgf]

/-- `buildRecord` fixes date, placeholder day type, weekday and unset
rain for its date. -/
theorem buildRecord_frame (recs : List RawMotRecord)
    (cols : List (String × List String)) (d : Date) :
    (buildRecord recs cols d).feature_date = d ∧
    (buildRecord recs cols d).day_type = -1 ∧
    (buildRecord recs cols d).dow = weekday d ∧
    (buildRecord recs cols d).rain_average = none := by
  have h := buildFold_frame recs d cols (initFeatureRow d)
  exact ⟨h.1, h.2.1, h.2.2.1, h.2.2.2⟩

/-- The pivot index is strictly increasing (pandas sorts it and its
entries are distinct dates). -/
theorem pivotDates_pairwise (recs : List RawMotRecord) :
    List.Pairwise (· < ·) (pivotDates recs) := by
  have hs : List.Sorted (· ≤ ·) (pivotDates recs) := List.sorted_insertionSort _ _
  have hn : (pivotDates recs).Nodup :=
    ((List.perm_insertionSort _ _).nodup_iff).mpr
      (List.nodup_dedup ((validRecords recs).filterMap (fun r => r.recDate)))
  exact (hs.and hn).imp (fun hab => lt_of_le_of_ne hab.1 hab.2)

/-- C10: every row `process_mot_data` emits has the placeholder day
type, unset rain, `dow` equal to the weekday of its date, and `0.0` in
every line column no surviving pivot column maps to; the emitted dates
are strictly ascending (hence pairwise distinct). -/
theorem process_mot_output_invariants (recs : List RawMotRecord) (rows : List FeatureRow)
    (h : processMotData recs = some rows) :
    (∀ r ∈ rows, r.day_type = -1 ∧ r.rain_average = none ∧ r.dow = weekday r.feature_date ∧
      (∀ f : LineCol, (∀ c ∈ mergedColumns recs, mappedField c.1 ≠ some f) →
        getLine f r = 0)) ∧
    List.Pairwise (fun a b : FeatureRow => a.feature_date < b.feature_date) rows := by
  rw [processMotData] at h
  by_cases h1 : recs.isEmpty
  · rw [if_pos h1] at h; exact Option.noConfusion h
  rw [if_neg h1] at h
  by_cases h2 : (pivotDates recs).isEmpty
  · rw [if_pos h2] at h; exact Option.noConfusion h
  rw [if_neg h2] at h
  have hx := Option.some.inj h
  subst hx
  constructor
  · intro r hr
    obtain ⟨d, hd, rfl⟩ := List.mem_map.mp hr
    have hb := buildRecord_frame recs (mergedColumns recs) d
    refine ⟨hb.2.1, hb.2.2.2, ?_, ?_⟩
    · rw [hb.2.2.1, hb.1]
    · intro f hf
      have hz : getLine f (buildRecord recs (mergedColumns recs) d) =
          getLine f (initFeatureRow d) :=
        buildFold_unmapped recs d f (mergedColumns recs) (initFeatureRow d) hf
      rw [hz]
      cases f <;> rfl
  · rw [List.pairwise_map]
    exact (pivotDates_pairwise recs).imp (fun hab => by
      rw [(buildRecord_frame recs (mergedColumns recs) _).1,
        (buildRecord_frame recs (mergedColumns recs) _).1]
      exact hab)


/-- Witness for C10 at a concrete one-record batch. -/
theorem process_mot_output_invariants_witness :
    processMotData btsBatch = some btsRows ∧
    ((∀ r ∈ btsRows, r.day_type = -1 ∧ r.rain_average = none ∧
        r.dow = weekday r.feature_date ∧
        (∀ f : LineCol, (∀ c ∈ mergedColumns btsBatch, mappedField c.1 ≠ some f) →
          getLine f r = 0)) ∧
      List.Pairwise (fun a b : FeatureRow => a.feature_date < b.feature_date) btsRows) :=
  ⟨by decide, process_mot_output_invariants btsBatch btsRows (by decide)⟩

/-! ## Claim C2 -/

/-- C2: the classifier checks holiday membership first, then festival
membership, then defaults to Normal; in particular a date in both sets
is Holiday (0), never Festival (2). -/
theorem classify_holiday_over_festival (d : String) (H F : List String) :
    (d ∈ H → classifyDayType d H F = 0) ∧
    (d ∉ H → d ∈ F → classifyDayType d H F = 2) ∧
    (d ∉ H → d ∉ F → classifyDayType d H F = 1) := by
  refine ⟨fun hH => ?_, fun hH hF => ?_, fun hH hF => ?_⟩
  · simp [classifyDayType, hH]
  · simp [classifyDayType, hH, hF]
  · simp [classifyDayType, hH, hF]

/-- Witness for C2 at a date listed as both holiday and festival. -/
theorem classify_holiday_over_festival_witness :
    "2025-04-13" ∈ ["2025-04-13", "2025-01-01"] ∧
    "2025-04-13" ∈ ["2025-04-13", "2025-02-14"] ∧
    classifyDayType "2025-04-13" ["2025-04-13", "2025-01-01"] ["2025-04-13", "2025-02-14"] = 0 :=
  ⟨by decide, by decide,
    (classify_holiday_over_festival "2025-04-13" ["2025-04-13", "2025-01-01"]
      ["2025-04-13", "2025-02-14"]).1 (by decide)⟩

/-! ## Claim C3 -/

/-- C3: `get_second_saturday` is right for January 2025 (second
Saturday = the 11th), but for a month whose first calendar week has no
Saturday — a month starting on Sunday, such as January 2023 — it
returns day 7, the *first* Saturday, while the conventional second
Saturday is day 14. -/
theorem second_saturday_first_week_bug :
    getSecondSaturday 2025 1 = 11 ∧ conventionalSecondSaturday 2025 1 = 11 ∧
    getSecondSaturday 2023 1 = 7 ∧ conventionalSecondSaturday 2023 1 = 14 := by
  refine ⟨by decide, by decide, by decide, by decide⟩

/-! ## Claim C4 -/

/-- C4: over the 7 tracked line columns the transit quality score is
`max 0 ((49 − missing cells)/49)`; the verdict is Fail exactly when
the score is below 4/5, else Warning exactly when an anomaly or a
missing cell exists, else Pass; and a 7-row window with exactly 10
missing cells scores 39/49 < 4/5 and fails. -/
theorem mot_quality_score_and_verdict :
    (∀ rows : List StoredRow,
      motQualityScore rows = max 0 ((49 - (motTotalMissing rows : Rat)) / 49) ∧
      (motStatusOf rows = .fail ↔ motQualityScore rows < 4/5) ∧
      (motStatusOf rows = .warning ↔
        (¬ motQualityScore rows < 4/5 ∧ (motAnomalies rows ≠ [] ∨ motTotalMissing rows ≠ 0))) ∧
      (motStatusOf rows = .pass ↔
        (¬ motQualityScore rows < 4/5 ∧ motAnomalies rows = [] ∧ motTotalMissing rows = 0))) ∧
    transportColumns.length = 7 ∧
    motTotalMissing tenMissingWindow = 10 ∧
    motQualityScore tenMissingWindow = 39/49 ∧
    (39 : Rat)/49 < 4/5 ∧
    motStatusOf tenMissingWindow = .fail := by
  have hten : motTotalMissing tenMissingWindow = 10 := by decide
  have hscore : motQualityScore tenMissingWindow = 39/49 := by
    rw [motQualityScore, hten]; norm_num
  have hlt : (39 : Rat)/49 < 4/5 := by norm_num
  have hkey : ∀ rows : List StoredRow,
      (motStatusOf rows = .fail ↔ motQualityScore rows < 4/5) ∧
      (motStatusOf rows = .warning ↔
        (¬ motQualityScore rows < 4/5 ∧ (motAnomalies rows ≠ [] ∨ motTotalMissing rows ≠ 0))) ∧
      (motStatusOf rows = .pass ↔
        (¬ motQualityScore rows < 4/5 ∧ motAnomalies rows = [] ∧ motTotalMissing rows = 0)) := by
    intro rows
    by_cases h1 : motQualityScore rows < 4/5 <;>
      by_cases h2 : motAnomalies rows = [] <;>
        by_cases h3 : motTotalMissing rows = 0 <;>
          simp [motStatusOf, h1, h2, h3, Nat.pos_iff_ne_zero]
  refine ⟨fun rows => ⟨rfl, hkey rows⟩, by decide, hten, hscore, hlt, ?_⟩
  exact (hkey tenMissingWindow).1.2 (hscore ▸ hlt)

/-! ## Claim C5 -/

/-- C5: under the stored Monday=0..Sunday=6 encoding, the day-type
check's `dow IN (6, 0)` filter misses a Saturday Holiday row
(`dow = 5`, no classification error recorded) and instead flags a
Monday Holiday row (`dow = 0`); the flagged row does force at least a
Warning verdict. -/
theorem weekend_consistency_check_misreads_dow :
    weekday satHolidayRow.feature_date = 5 ∧ satHolidayRow.dow = 5 ∧
    satHolidayRow.day_type = 0 ∧
    dayTypeClassificationErrors [satHolidayRow] = [] ∧
    weekday monHolidayRow.feature_date = 0 ∧ monHolidayRow.dow = 0 ∧
    monHolidayRow.day_type = 0 ∧
    dayTypeClassificationErrors [monHolidayRow] = [monHolidayRow] ∧
    dayTypeStatusOf [monHolidayRow] 1 = QStatus.warning := by
  refine ⟨by decide, by decide, by decide, by decide, by decide, by decide, by decide,
    by decide, ?_⟩
  have hscore : dayTypeScore [monHolidayRow] 1 = 1 := by
    rw [dayTypeScore]
    norm_num [dayTypeProcessed, monHolidayRow]
  rw [dayTypeStatusOf, hscore]
  norm_num
  decide

/-! ## Claims C6 and C7: upsert-engine lemmas -/

/-- The unconditional upsert, observed at one date. -/
theorem insertFold_apply (l : List FeatureRow) :
    ∀ (s : Store) (d : Date), (l.foldl upsertRow s) d = l.foldl (insertCell d) (s d) := by
  induction l with
  | nil => intro s d; rfl
  | cons b bs ih => intro s d; exact ih (upsertRow s b) d

/-- The guarded day-type update, observed at one date. -/
theorem dayTypeFold_apply (l : List (Date × Int)) :
    ∀ (s : Store) (d : Date),
      (l.foldl updateDayTypeRow s) d = l.foldl (dayTypeCell d) (s d) := by
  induction l with
  | nil => intro s d; rfl
  | cons f fs ih => intro s d; exact ih (updateDayTypeRow s f) d

/-- The guarded rain update, observed at one date. -/
theorem rainFold_apply (l : List (Date × Int)) :
    ∀ (s : Store) (d : Date),
      (l.foldl updateRainRow s) d = l.foldl (rainCell d) (s d) := by
  induction l with
  | nil => intro s d; rfl
  | cons f fs ih => intro s d; exact ih (updateRainRow s f) d

/-- A fold of guarded blind writes (`if p b then w b else o`) is
idempotent: the second pass rewrites the same final values. -/
theorem foldl_overwrite_idem {α : Type} {β : Type} (p : β → Prop) [DecidablePred p]
    (w : β → α) (l : List β) :
    ∀ v : α,
      l.foldl (fun o b => if p b then w b else o)
          (l.foldl (fun o b => if p b then w b else o) v) =
        l.foldl (fun o b => if p b then w b else o) v := by
  induction l using List.reverseRecOn with
  | nil => intro v; rfl
  | append_singleton bs b ih =>
    intro v
    by_cases hb : p b
    · simp [List.foldl_append, hb]
    · simp only [List.foldl_append, List.foldl_cons, List.foldl_nil, if_neg hb]
      exact ih v

/-- A fold of sentinel-guarded writes (each step fixes any non-sentinel
value) is idempotent. -/
theorem foldl_sentinel_idem {α : Type} {β : Type} [DecidableEq α] (c : α) (σ : α → β → α)
    (hfix : ∀ v f, v ≠ c → σ v f = v) (l : List β) (v : α) :
    l.foldl σ (l.foldl σ v) = l.foldl σ v := by
  have fixall : ∀ w, w ≠ c → l.foldl σ w = w := by
    induction l with
    | nil => intro w hw; rfl
    | cons b bs ih => intro w hw; rw [List.foldl_cons, hfix w b hw]; exact ih w hw
  by_cases hw : l.foldl σ v = c
  · have hv : v = c := by
      by_contra hv
      exact hv ((fixall v hv).symm.trans hw)
    rw [hw]
    rw [hv] at hw
    exact hw
  · exact fixall _ hw

/-- One guarded day-type write, acting on a present row, only rewrites
the `day_type` field. -/
theorem dayTypeCell_some (d : Date) (r : StoredRow) (f : Date × Int) :
    dayTypeCell d (some r) f =
      some { r with day_type := if f.1 = d ∧ r.day_type = -1 then f.2 else r.day_type } := by
  by_cases h1 : f.1 = d
  · by_cases h2 : r.day_type = -1 <;> simp [dayTypeCell, h1, h2]
  · simp [dayTypeCell, h1]

/-- An absent row stays absent under the guarded day-type write. -/
theorem dayTypeCell_none (d : Date) (f : Date × Int) :
    dayTypeCell d none f = none := by
  by_cases h1 : f.1 = d <;> simp [dayTypeCell, h1]

/-- The guarded day-type fold, acting on a present row, only rewrites
the `day_type` field, by the fold of the value-level guarded writes. -/
theorem dayTypeFold_some (d : Date) (l : List (Date × Int)) :
    ∀ r : StoredRow,
      l.foldl (dayTypeCell d) (some r) =
        some { r with day_type :=
          (l.foldl (fun v f => if f.1 = d ∧ v = -1 then f.2 else v) r.day_type) } := by
  induction l with
  | nil => intro r; rfl
  | cons f fs ih =>
    intro r
    rw [List.foldl_cons, List.foldl_cons, dayTypeCell_some d r f]
    exact ih { r with day_type := if f.1 = d ∧ r.day_type = -1 then f.2 else r.day_type }

/-- The guarded day-type fold sends an absent row to an absent row. -/
theorem dayTypeFold_none (d : Date) (l : List (Date × Int)) :
    l.foldl (dayTypeCell d) none = none := by
  induction l with
  | nil => rfl
  | cons f fs ih => rw [List.foldl_cons, dayTypeCell_none]; exact ih

/-- One guarded rain write, acting on a present row, only rewrites the
`rain_average` field. -/
theorem rainCell_some (d : Date) (r : StoredRow) (f : Date × Int) :
    rainCell d (some r) f =
      some { r with rain_average :=
        if f.1 = d ∧ r.rain_average = none then some f.2 else r.rain_average } := by
  by_cases h1 : f.1 = d
  · by_cases h2 : r.rain_average = none <;> simp [rainCell, h1, h2]
  · simp [rainCell, h1]

/-- An absent row stays absent under the guarded rain write. -/
theorem rainCell_none (d : Date) (f : Date × Int) :
    rainCell d none f = none := by
  by_cases h1 : f.1 = d <;> simp [rainCell, h1]

/-- The guarded rain fold, acting on a present row, only rewrites the
`rain_average` field. -/
theorem rainFold_some (d : Date) (l : List (Date × Int)) :
    ∀ r : StoredRow,
      l.foldl (rainCell d) (some r) =
        some { r with rain_average :=
          (l.foldl (fun v f => if f.1 = d ∧ v = none then some f.2 else v) r.rain_average) } := by
  induction l with
  | nil => intro r; rfl
  | cons f fs ih =>
    intro r
    rw [List.foldl_cons, List.foldl_cons, rainCell_some d r f]
    exact ih { r with rain_average :=
      (if f.1 = d ∧ r.rain_average = none then some f.2 else r.rain_average) }

/-- The guarded rain fold sends an absent row to an absent row. -/
theorem rainFold_none (d : Date) (l : List (Date × Int)) :
    l.foldl (rainCell d) none = none := by
  induction l with
  | nil => rfl
  | cons f fs ih => rw [List.foldl_cons, rainCell_none]; exact ih

/-- C6: re-applying any of the three write operations with the same
batch leaves the persisted state exactly as after the first
application — the unconditional transit upsert rewrites the same rows,
and the placeholder-guarded rain and day-type updates find their
guards already consumed (or rewrite the same placeholder value). -/
theorem upsert_engine_idempotent (batch : List FeatureRow)
    (rainFrags dayTypeFrags : List (Date × Int)) (s : Store) :
    insertNewData batch (insertNewData batch s) = insertNewData batch s ∧
    updateRainAverageInDb rainFrags (updateRainAverageInDb rainFrags s) =
      updateRainAverageInDb rainFrags s ∧
    updateDayTypeInDb dayTypeFrags (updateDayTypeInDb dayTypeFrags s) =
      updateDayTypeInDb dayTypeFrags s := by
  refine ⟨funext fun d => ?_, funext fun d => ?_, funext fun d => ?_⟩
  · rw [insertNewData, insertNewData, insertFold_apply, insertFold_apply]
    exact foldl_overwrite_idem (fun b => b.feature_date = d) (fun b => some (storedOfRow b))
      (sortByDate batch) (s d)
  · rw [updateRainAverageInDb, updateRainAverageInDb, rainFold_apply, rainFold_apply]
    cases hs : s d with
    | none => rw [rainFold_none, rainFold_none]
    | some r =>
      rw [rainFold_some, rainFold_some]
      exact congrArg (fun v => some { r with rain_average := v })
        (foldl_sentinel_idem none (fun v f => if f.1 = d ∧ v = none then some f.2 else v)
          (fun v f hv => by simp [hv]) rainFrags r.rain_average)
  · rw [updateDayTypeInDb, updateDayTypeInDb, dayTypeFold_apply, dayTypeFold_apply]
    cases hs : s d with
    | none => rw [dayTypeFold_none, dayTypeFold_none]
    | some r =>
      rw [dayTypeFold_some, dayTypeFold_some]
      exact congrArg (fun v => some { r with day_type := v })
        (foldl_sentinel_idem (-1) (fun v f => if f.1 = d ∧ v = -1 then f.2 else v)
          (fun v f hv => by simp [hv]) dayTypeFrags r.day_type)

/-- The value-level day-type fold fixes any non-placeholder value. -/
theorem dayTypeValFold_fix (d : Date) (l : List (Date × Int)) :
    ∀ w : Int, w ≠ -1 →
      l.foldl (fun v f => if f.1 = d ∧ v = -1 then f.2 else v) w = w := by
  induction l with
  | nil => intro w hw; rfl
  | cons f fs ih => intro w hw; rw [List.foldl_cons, if_neg (by simp [hw])]; exact ih w hw

/-- The value-level rain fold fixes any non-placeholder value. -/
theorem rainValFold_fix (d : Date) (l : List (Date × Int)) :
    ∀ w : Option Int, w ≠ none →
      l.foldl (fun v f => if f.1 = d ∧ v = none then some f.2 else v) w = w := by
  induction l with
  | nil => intro w hw; rfl
  | cons f fs ih => intro w hw; rw [List.foldl_cons, if_neg (by simp [hw])]; exact ih w hw

/-- C7: the guarded updates touch only their own field — a present row
keeps its date, dow, line values and the respective other field, an
absent row stays absent — and a row not carrying the placeholder is
returned unchanged. -/
theorem guarded_updates_frame (dayTypeFrags rainFrags : List (Date × Int))
    (s : Store) (d : Date) :
    (s d = none →
      updateDayTypeInDb dayTypeFrags s d = none ∧
      updateRainAverageInDb rainFrags s d = none) ∧
    (∀ r : StoredRow, s d = some r →
      (∃ t : Int, updateDayTypeInDb dayTypeFrags s d = some { r with day_type := t }) ∧
      (r.day_type ≠ -1 → updateDayTypeInDb dayTypeFrags s d = some r) ∧
      (∃ v : Option Int,
        updateRainAverageInDb rainFrags s d = some { r with rain_average := v }) ∧
      (r.rain_average ≠ none → updateRainAverageInDb rainFrags s d = some r)) := by
  constructor
  · intro hs
    rw [updateDayTypeInDb, updateRainAverageInDb, dayTypeFold_apply, rainFold_apply, hs]
    exact ⟨dayTypeFold_none d dayTypeFrags, rainFold_none d rainFrags⟩
  · intro r hs
    have hdt : updateDayTypeInDb dayTypeFrags s d =
        some { r with day_type :=
          (dayTypeFrags.foldl (fun v f => if f.1 = d ∧ v = -1 then f.2 else v) r.day_type) } := by
      rw [updateDayTypeInDb, dayTypeFold_apply, hs, dayTypeFold_some]
    have hrn : updateRainAverageInDb rainFrags s d =
        some { r with rain_average :=
          (rainFrags.foldl (fun v f => if f.1 = d ∧ v = none then some f.2 else v)
            r.rain_average) } := by
      rw [updateRainAverageInDb, rainFold_apply, hs, rainFold_some]
    refine ⟨⟨_, hdt⟩, fun hr => ?_, ⟨_, hrn⟩, fun hr => ?_⟩
    · rw [hdt, dayTypeValFold_fix d dayTypeFrags r.day_type hr]
    · rw [hrn, rainValFold_fix d rainFrags r.rain_average hr]

/-- Witness for C7 at a concrete non-placeholder row: both guarded
updates leave it untouched. -/
theorem guarded_updates_frame_witness :
    frameStore 0 = some frameRow0 ∧
    updateDayTypeInDb [(0, 2)] frameStore 0 = some frameRow0 ∧
    updateRainAverageInDb [(0, 5)] frameStore 0 = some frameRow0 :=
  ⟨rfl,
    ((guarded_updates_frame [(0, 2)] [(0, 5)] frameStore 0).2 frameRow0 rfl).2.1 (by decide),
    ((guarded_updates_frame [(0, 2)] [(0, 5)] frameStore 0).2 frameRow0 rfl).2.2.2 (by decide)⟩

/-! ## Claim C8 -/

/-- C8: a Fail verdict at any stage makes that stage's branch function
select its failure terminal and cuts every later collection or
evaluation task out of the run; a Pass or Warning verdict selects the
next stage's collection task. -/
theorem quality_fail_aborts_pipeline (m r d : QStatus) :
    (m = .fail → motBranchOf m = "mot_quality_failed" ∧
      "collect_rain_weather_data" ∉ pipelineTrace m r d ∧
      "rain_quality_check" ∉ pipelineTrace m r d ∧
      "collect_day_type_data" ∉ pipelineTrace m r d ∧
      "day_type_quality_check" ∉ pipelineTrace m r d ∧
      "final_quality_validation" ∉ pipelineTrace m r d) ∧
    (m ≠ .fail → motBranchOf m = "collect_rain_weather_data" ∧
      "collect_rain_weather_data" ∈ pipelineTrace m r d) ∧
    (r = .fail → rainBranchOf r = "rain_quality_failed" ∧
      "collect_day_type_data" ∉ pipelineTrace m r d ∧
      "day_type_quality_check" ∉ pipelineTrace m r d ∧
      "final_quality_validation" ∉ pipelineTrace m r d) ∧
    (r ≠ .fail → rainBranchOf r = "collect_day_type_data" ∧
      (m ≠ .fail → "collect_day_type_data" ∈ pipelineTrace m r d)) ∧
    (d = .fail → dayTypeBranchOf d = "day_type_quality_failed" ∧
      "final_quality_validation" ∉ pipelineTrace m r d) ∧
    (d ≠ .fail → dayTypeBranchOf d = "final_quality_validation" ∧
      (m ≠ .fail → r ≠ .fail → "final_quality_validation" ∈ pipelineTrace m r d)) := by
  cases m <;> cases r <;> cases d <;>
    exact ⟨by decide, by decide, by decide, by decide, by decide, by decide⟩

/-- Witness for C8: a failing transit stage selects the failure
terminal and the final validation never runs. -/
theorem quality_fail_aborts_pipeline_witness :
    motBranchOf .fail = "mot_quality_failed" ∧
    "final_quality_validation" ∉ pipelineTrace .fail .pass .pass :=
  ⟨((quality_fail_aborts_pipeline .fail .pass .pass).1 rfl).1,
    ((quality_fail_aborts_pipeline .fail .pass .pass).1 rfl).2.2.2.2.2⟩

/-! ## Claim C9 -/

/-- Counterexample to C9: on the empty store the run plans no query at
all — `get_latest_date_from_db` yields `none` and `main` aborts — so
no full backfill is performed. -/
theorem empty_store_plans_nothing : motRunPlan [] (2025, 10, 12) = none := rfl

/-- Folding the max from a known date never loses it. -/
theorem foldl_latestStep_isSome (ds : List Ymd) :
    ∀ a : Ymd, (ds.foldl latestStep (some a)).isSome = true := by
  induction ds with
  | nil => intro a; rfl
  | cons x xs ih => intro a; exact ih _

/-- C9 amended: on an empty store `main` aborts without any query (no
backfill, no incremental fetch); on any non-empty store it plans an
incremental month query. -/
theorem empty_store_aborts_run :
    (∀ today : Ymd, motRunPlan [] today = none) ∧
    (∀ (d : Ymd) (ds : List Ymd) (today : Ymd), (motRunPlan (d :: ds) today).isSome = true) := by
  constructor
  · intro _; rfl
  · intro d ds today
    rw [motRunPlan, getLatestDate, List.foldl_cons]
    have h : (ds.foldl latestStep (latestStep none d)).isSome = true :=
      foldl_latestStep_isSome ds d
    cases hl : ds.foldl latestStep (latestStep none d) with
    | none => rw [hl] at h; simp at h
    | some a => rfl

end DbMock
